import Mathlib

/-!
Shallow embedding of the `avvideocompare` GStreamer element
(`ext/libav/gstavvidcmp.c`): the element state, its caps handling,
its write-once property guards, the frame aggregation path, and
spec-level models of the delegated metric kernels.
-/

namespace GstAvVidCmp

/-- GstFFMpegVidCmpMethod: the two compare methods exposed by the element. -/
inductive GstFFMpegVidCmpMethod
  | ssim
  | psnr
deriving DecidableEq

/-- GstVideoFormat values relevant to the element: the seventeen formats of
the static pad template string GST_FFMPEGVIDCMP_FORMATS, plus two
representative formats outside that closed set (AYUV, Y41B). -/
inductive GstVideoFormat
  | ARGB | BGRA | ABGR | RGBA | xRGB | BGRx | xBGR | RGBx | RGB16
  | GRAY8 | NV12 | NV21 | YUY2 | UYVY | I420 | Y42B | Y444
  | AYUV | Y41B
deriving DecidableEq

/-- libav pixel formats that the seventeen supported GStreamer formats map to.
`ORGB`, `OBGR`, `RGB0`, `BGR0` stand for AV_PIX_FMT_0RGB, AV_PIX_FMT_0BGR,
AV_PIX_FMT_RGB0, AV_PIX_FMT_BGR0. -/
inductive AVPixelFormat
  | ARGB | BGRA | ABGR | RGBA | ORGB | BGR0 | OBGR | RGB0 | RGB565
  | GRAY8 | NV12 | NV21 | YUYV422 | UYVY422 | YUV420P | YUV422P | YUV444P
deriving DecidableEq

/-- The closed set of supported formats, from the GST_FFMPEGVIDCMP_FORMATS
pad-template string in the source. -/
def GST_FFMPEGVIDCMP_FORMATS : List GstVideoFormat :=
  [.ARGB, .BGRA, .ABGR, .RGBA, .xRGB, .BGRx, .xBGR, .RGBx, .RGB16,
   .GRAY8, .NV12, .NV21, .YUY2, .UYVY, .I420, .Y42B, .Y444]

/-- Modelled from the spec: `gst_ffmpeg_videoformat_to_pixfmt` lives in
`gstavcodecmap.c`, which is not under src/, and the pad-template caps
negotiation that restricts inputs to GST_FFMPEGVIDCMP_FORMATS is performed by
the host framework. Per the spec, a pixel format outside the closed set is
`FormatUnsupported` (fatal during configuration), so the mapping yields a
libav pixel format exactly for the formats of the closed set. -/
def gst_ffmpeg_videoformat_to_pixfmt : GstVideoFormat → Option AVPixelFormat
  | .ARGB => some .ARGB
  | .BGRA => some .BGRA
  | .ABGR => some .ABGR
  | .RGBA => some .RGBA
  | .xRGB => some .ORGB
  | .BGRx => some .BGR0
  | .xBGR => some .OBGR
  | .RGBx => some .RGB0
  | .RGB16 => some .RGB565
  | .GRAY8 => some .GRAY8
  | .NV12 => some .NV12
  | .NV21 => some .NV21
  | .YUY2 => some .YUYV422
  | .UYVY => some .UYVY422
  | .I420 => some .YUV420P
  | .Y42B => some .YUV422P
  | .Y444 => some .YUV444P
  | _ => none

/-- The state an initialized AVFilterGraph captures: geometry, pixel format,
method and stats file are baked into the filter-graph arguments by
`init_filter_graph`. -/
structure AVFilterGraph where
  graph_width : Int
  graph_height : Int
  graph_pixfmt : Option AVPixelFormat
  graph_method : GstFFMpegVidCmpMethod
  graph_stats_file : String
deriving DecidableEq

/-- The fields of `struct _GstFFMpegVidCmp` that the element logic reads or
writes. `pixfmt = none` models AV_PIX_FMT_NONE; the three `Option Unit`
fields model the in1/in2/out AVFilterContext pointers. -/
structure GstFFMpegVidCmp where
  width : Int
  height : Int
  fps_num : Int
  fps_denom : Int
  filter_graph : Option AVFilterGraph
  in1_ctx : Option Unit
  in2_ctx : Option Unit
  out_ctx : Option Unit
  pixfmt : Option AVPixelFormat
  method : GstFFMpegVidCmpMethod
  stats_file : String
deriving DecidableEq

/-- `gst_ffmpegvidcmp_reset`: clears the negotiated format, drops the filter
contexts and frees the filter graph; method and stats_file are untouched. -/
def gst_ffmpegvidcmp_reset (self : GstFFMpegVidCmp) : GstFFMpegVidCmp :=
  { self with
    width := -1
    height := -1
    fps_num := 0
    fps_denom := 1
    pixfmt := none
    in1_ctx := none
    in2_ctx := none
    out_ctx := none
    filter_graph := none }

/-- The video info parsed from a caps event (`GstVideoInfo`). -/
structure GstVideoInfo where
  format : GstVideoFormat
  info_width : Int
  info_height : Int
  fps_n : Int
  fps_d : Int
deriving DecidableEq

/-- `gst_ffmpegvidcmp_setcaps`: a `none` caps argument models a caps value
`gst_video_info_from_caps` cannot parse. On a parseable caps the geometry and
framerate are recorded and the pixel format is mapped; the call returns FALSE
exactly when the mapping yields AV_PIX_FMT_NONE (the assignments to width,
height and framerate have already happened at that point, as in the source). -/
def gst_ffmpegvidcmp_setcaps (self : GstFFMpegVidCmp) (caps : Option GstVideoInfo) :
    Bool × GstFFMpegVidCmp :=
  match caps with
  | none => (false, self)
  | some vinfo =>
    let pf := gst_ffmpeg_videoformat_to_pixfmt vinfo.format
    let self' := { self with
      width := vinfo.info_width
      height := vinfo.info_height
      fps_num := vinfo.fps_n
      fps_denom := vinfo.fps_d
      pixfmt := pf }
    (pf.isSome, self')

/-- The element is in the spec's `Configured` state once a pixel format has
been successfully mapped and recorded. -/
def configured (self : GstFFMpegVidCmp) : Bool :=
  self.pixfmt.isSome

/-- The two writable properties of the element. -/
inductive PropId
  | statsFile
  | vidcmpMethod
deriving DecidableEq

/-- A GValue carrying either a string or a method enum. -/
inductive GValue
  | vstring (s : String)
  | venum (m : GstFFMpegVidCmpMethod)
deriving DecidableEq

def g_value_get_string : GValue → String
  | .vstring s => s
  | .venum _ => ""

def g_value_get_enum : GValue → GstFFMpegVidCmpMethod
  | .venum m => m
  | .vstring _ => .ssim

/-- `gst_ffmpegvidcmp_set_property`: both properties are refused with a
warning (second component `true`) while the filter graph is initialized,
and stored otherwise. -/
def gst_ffmpegvidcmp_set_property (self : GstFFMpegVidCmp) (pid : PropId) (v : GValue) :
    GstFFMpegVidCmp × Bool :=
  match pid with
  | .statsFile =>
    if self.filter_graph.isSome then (self, true)
    else ({ self with stats_file := g_value_get_string v }, false)
  | .vidcmpMethod =>
    if self.filter_graph.isSome then (self, true)
    else ({ self with method := g_value_get_enum v }, false)

/-- `gst_ffmpegvidcmp_get_property`. -/
def gst_ffmpegvidcmp_get_property (self : GstFFMpegVidCmp) (pid : PropId) : GValue :=
  match pid with
  | .statsFile => .vstring self.stats_file
  | .vidcmpMethod => .venum self.method

/-- Outcomes of the libavfilter calls made by `init_filter_graph` and
`process_filter_graph`; these calls execute outside the element. -/
structure LibAVEnv where
  parse_ok : Bool
  config_ok : Bool
  src1_ok : Bool
  src2_ok : Bool
  sink_ok : Bool
deriving DecidableEq

/-- `init_filter_graph`: allocates the graph (the OOM failure of
`avfilter_graph_alloc` is not modelled), then parses and configures it; as
in the source, the allocated graph stays attached to the element even when
parsing or configuration fails, and the filter contexts are only fetched on
full success. Returns a negative result on failure. -/
def init_filter_graph (self : GstFFMpegVidCmp) (env : LibAVEnv) :
    Int × GstFFMpegVidCmp :=
  let g : AVFilterGraph := {
    graph_width := self.width
    graph_height := self.height
    graph_pixfmt := self.pixfmt
    graph_method := self.method
    graph_stats_file := self.stats_file }
  let self' := { self with filter_graph := some g }
  if !env.parse_ok then (-1, self')
  else if !env.config_ok then (-1, self')
  else (0, { self' with in1_ctx := some (), in2_ctx := some (), out_ctx := some () })

/-- A mapped video frame: per-component pixel byte planes, geometry,
presentation timestamp and duration. -/
structure GstVideoFrame where
  planes : List (List Nat)
  frame_width : Int
  frame_height : Int
  pts : Int
  duration : Option Int
deriving DecidableEq

/-- The AVFrame fields `_fill_avpicture` sets: plane data pointers (shared
with the video frame, zero-copy), geometry and format. -/
structure AVFrame where
  data : List (List Nat)
  av_width : Int
  av_height : Int
  av_format : Option AVPixelFormat
deriving DecidableEq

/-- `_fill_avpicture`: wraps a mapped video frame into an AVFrame without
copying or modifying any pixel data. -/
def _fill_avpicture (self : GstFFMpegVidCmp) (vframe : GstVideoFrame) : AVFrame :=
  { data := vframe.planes
    av_width := vframe.frame_width
    av_height := vframe.frame_height
    av_format := self.pixfmt }

/-- `process_filter_graph`: initializes the filter graph on first use, then
pushes both frames into the graph and pulls the metric result frame. The
frames are consumed only by the delegated library; a negative return models
any failing libavfilter call. -/
def process_filter_graph (self : GstFFMpegVidCmp) (env : LibAVEnv)
    (_in1 _in2 : AVFrame) : Int × GstFFMpegVidCmp :=
  let st := if self.filter_graph.isNone then init_filter_graph self env else (0, self)
  if st.1 < 0 then st
  else if !env.src1_ok then (-1, st.2)
  else if !env.src2_ok then (-1, st.2)
  else if !env.sink_ok then (-1, st.2)
  else (0, st.2)

/-- Modelled from the spec: `gst_video_frame_copy` belongs to the gst-video
library, which is not under src/. Per the spec, a full plane-wise copy of the
source frame pixel data is performed into the destination buffer; the source
frame is untouched. -/
def gst_video_frame_copy (dest : GstVideoFrame) (src : GstVideoFrame) : GstVideoFrame :=
  { dest with planes := src.planes }

/-- The GstFlowReturn values `gst_ffmpegvidcmp_aggregate_frames` produces. -/
inductive GstFlowReturn
  | ok
  | error
  | eos
deriving DecidableEq

/-- Everything `gst_ffmpegvidcmp_aggregate_frames` produces or can have
touched: the flow return, the element state, the output buffer, whether the
metric-failure warning was emitted, and the reference frame as it stands
after the call. -/
structure AggregateResult where
  flow : GstFlowReturn
  self : GstFFMpegVidCmp
  outbuf : GstVideoFrame
  warned : Bool
  ref_out : Option GstVideoFrame
deriving DecidableEq

/-- `gst_ffmpegvidcmp_aggregate_frames`: `ref` and `cmp` are the prepared
frames of the two sink pads (`none` when the pad has none queued, which the
base class only allows once that pad is at end-of-stream). When both are
present the pair is run through the filter graph — a failure there only
raises a warning — and the reference frame is copied into the mapped output
buffer; `map_ok` is the outcome of `gst_video_frame_map` on the output
buffer. When a prepared frame is missing the call returns GST_FLOW_EOS. -/
def gst_ffmpegvidcmp_aggregate_frames (self : GstFFMpegVidCmp) (env : LibAVEnv)
    (ref cmp : Option GstVideoFrame) (outbuf : GstVideoFrame) (map_ok : Bool) :
    AggregateResult :=
  match ref, cmp with
  | some r, some c =>
    let avref := _fill_avpicture self r
    let avcmp := _fill_avpicture self c
    let pr := process_filter_graph self env avref avcmp
    let warned := decide (pr.1 < 0)
    if map_ok then
      { flow := .ok
        self := pr.2
        outbuf := gst_video_frame_copy outbuf r
        warned := warned
        ref_out := some r }
    else
      { flow := .error
        self := pr.2
        outbuf := outbuf
        warned := warned
        ref_out := some r }
  | _, _ =>
    { flow := .eos
      self := self
      outbuf := outbuf
      warned := false
      ref_out := ref }

/-- Modelled from the spec: the host aggregator framework (not under src/)
stamps each output buffer pushed downstream with the timing of the frame the
element forwards — the spec requires the reference frame to be emitted with
the same pixel data, timestamp and duration. -/
def push_downstream (outbuf : GstVideoFrame) (r : GstVideoFrame) : GstVideoFrame :=
  { outbuf with pts := r.pts, duration := r.duration }

/-- Results of one scheduling decision of the frame-pair synchronizer. -/
inductive PollResult
  | pair (r c : GstVideoFrame)
  | wait
  | terminate
deriving DecidableEq

/-- Modelled from the spec: the GstAggregator base class that schedules
`aggregate_frames` is not under src/. Per the spec, the poll yields a pair
when both queues have a head, terminates when an input has signalled
end-of-stream and its queue is empty, and waits otherwise. -/
def poll (q1 q2 : List GstVideoFrame) (eos1 eos2 : Bool) : PollResult :=
  match q1, q2 with
  | r :: _, c :: _ => .pair r c
  | _, _ =>
    if (eos1 && q1.isEmpty) || (eos2 && q2.isEmpty) then .terminate else .wait

/-- Downstream caps derived from a video info (`gst_video_info_to_caps`;
caps are modelled by the video info they carry). -/
def gst_video_info_to_caps (i : GstVideoInfo) : GstVideoInfo := i

/-- The negotiated video infos held by the two sink pads. -/
structure VidCmpPads where
  sinkpad1_info : GstVideoInfo
  sinkpad2_info : GstVideoInfo
deriving DecidableEq

/-- `gst_ffmpegvidcmp_update_caps`: builds the downstream caps from the
video info of sinkpad1 — the reference pad — and hands exactly those caps to
the base class. -/
def gst_ffmpegvidcmp_update_caps (pads : VidCmpPads) : GstVideoInfo :=
  gst_video_info_to_caps pads.sinkpad1_info

/-!
Metric kernels. The source delegates the SSIM and PSNR math to libavfilter
(the `ssim` and `psnr` filters named in the filter-graph string built by
`init_filter_graph`); that library is not under src/, so the kernels below
are modelled from the spec (§4.2) over exact rationals.
-/

/-- A component plane: rows of sample values. -/
abbrev Plane := List (List ℚ)

/-- Arithmetic mean of a list of rationals (0 on the empty list). -/
def qmean (xs : List ℚ) : ℚ := xs.sum / (xs.length : ℚ)

/-- Modelled from the spec: the SSIM constant C1 = (0.01·MAX)² with MAX = 255
(libavfilter ssim kernel, not under src/). -/
def ssimC1 : ℚ := (1 / 100 * 255) * (1 / 100 * 255)

/-- Modelled from the spec: the SSIM constant C2 = (0.03·MAX)². -/
def ssimC2 : ℚ := (3 / 100 * 255) * (3 / 100 * 255)

/-- Modelled from the spec: per-block SSIM with mean, variance and covariance
terms — ((2μrμc + C1)(2σrc + C2)) / ((μr² + μc² + C1)(σr² + σc² + C2)). -/
def ssimBlockScore (r c : List ℚ) : ℚ :=
  let mur := qmean r
  let muc := qmean c
  let vr := qmean (r.map fun x => (x - mur) * (x - mur))
  let vc := qmean (c.map fun x => (x - muc) * (x - muc))
  let cov := qmean (List.zipWith (fun a b => (a - mur) * (b - muc)) r c)
  ((2 * mur * muc + ssimC1) * (2 * cov + ssimC2)) /
    ((mur * mur + muc * muc + ssimC1) * (vr + vc + ssimC2))

/-- The samples of the 8×8 block (clipped at the plane edges) at block row
`bi` and block column `bj`. -/
def blockAt (p : Plane) (bi bj : ℕ) : List ℚ :=
  (((p.drop (8 * bi)).take 8).map fun row => (row.drop (8 * bj)).take 8).flatten

/-- Block indices of an H×W plane that the SSIM kernel evaluates: the 8×8
grid positions whose clipped extent is still at least 4×4. -/
def ssimBlocks (H W : ℕ) : List (ℕ × ℕ) :=
  ((List.range ((H + 7) / 8)).flatMap fun bi =>
    (List.range ((W + 7) / 8)).map fun bj => (bi, bj)).filter
    fun b => decide (4 ≤ min 8 (H - 8 * b.1) ∧ 4 ≤ min 8 (W - 8 * b.2))

/-- Modelled from the spec: per-component SSIM score — the arithmetic mean of
the block scores over all admissible (≥ 4×4 after clipping) blocks. -/
def ssimPlaneScore (H W : ℕ) (r c : Plane) : ℚ :=
  qmean ((ssimBlocks H W).map fun b =>
    ssimBlockScore (blockAt r b.1 b.2) (blockAt c b.1 b.2))

/-- Modelled from the spec: the SSIM aggregate — the component-pixel-count
weighted mean of the per-component scores. Each entry carries the component
height, width, reference plane and compared plane. -/
def ssim_aggregate (comps : List (ℕ × ℕ × Plane × Plane)) : ℚ :=
  let weights := comps.map fun x => ((x.1 * x.2.1 : ℕ) : ℚ)
  let scores := comps.map fun x => ssimPlaneScore x.1 x.2.1 x.2.2.1 x.2.2.2
  (List.zipWith (· * ·) weights scores).sum / weights.sum

/-- A PSNR score: the `inf` sentinel when the mean squared error vanishes,
otherwise finite; the finite constructor carries the weighted MSE `m` to
which 10·log10(MAX²/m) is applied. -/
inductive PsnrScore
  | inf
  | finiteMse (m : ℚ)
deriving DecidableEq

/-- Mean squared error between two planes, over their samples in raster
order. -/
def planeMse (r c : Plane) : ℚ :=
  qmean (List.zipWith (fun a b => (a - b) * (a - b)) r.flatten c.flatten)

/-- Modelled from the spec: the PSNR aggregate — a component-size-weighted
MSE across inspected components, reported as the sentinel `inf` when it is
zero. Each entry is a (reference, compared) plane pair. -/
def psnr_aggregate (comps : List (Plane × Plane)) : PsnrScore :=
  let weights := comps.map fun rc => ((rc.1.flatten.length : ℕ) : ℚ)
  let total :=
    (List.zipWith (· * ·) weights (comps.map fun rc => planeMse rc.1 rc.2)).sum /
      weights.sum
  if total = 0 then .inf else .finiteMse total

/-- Modelled from the spec: the number of components the metric kernels
inspect for each supported pixel format — three color components for the RGB
family and the YUV formats, one for GRAY8 and for RGB16 (treated as a single
16-bit plane). -/
def inspected_components : GstVideoFormat → ℕ
  | .GRAY8 => 1
  | .RGB16 => 1
  | _ => 3

/-! Concrete sample values used to exercise the definitions. -/

/-- A filter graph as initialized for a 16×16 I420 SSIM comparison. -/
def sampleGraph : AVFilterGraph :=
  { graph_width := 16
    graph_height := 16
    graph_pixfmt := some .YUV420P
    graph_method := .ssim
    graph_stats_file := "-" }

/-- An element state that has left `Idle`: caps are negotiated at 16×16 I420
and the filter graph has been initialized by a first processed pair. -/
def configuredState16 : GstFFMpegVidCmp :=
  { width := 16
    height := 16
    fps_num := 30
    fps_denom := 1
    filter_graph := some sampleGraph
    in1_ctx := some ()
    in2_ctx := some ()
    out_ctx := some ()
    pixfmt := some .YUV420P
    method := .ssim
    stats_file := "-" }

/-- A freshly initialized element state (after `gst_ffmpegvidcmp_init`). -/
def idleState : GstFFMpegVidCmp :=
  { width := -1
    height := -1
    fps_num := 0
    fps_denom := 1
    filter_graph := none
    in1_ctx := none
    in2_ctx := none
    out_ctx := none
    pixfmt := none
    method := .ssim
    stats_file := "-" }

/-- Video info for 32×32 I420 at 30 fps. -/
def vinfoI420x32 : GstVideoInfo :=
  { format := .I420, info_width := 32, info_height := 32, fps_n := 30, fps_d := 1 }

/-- Video info for 16×16 I420 at 30 fps. -/
def vinfoI420x16 : GstVideoInfo :=
  { format := .I420, info_width := 16, info_height := 16, fps_n := 30, fps_d := 1 }

/-- Video info with a format outside the closed supported set. -/
def vinfoAYUV : GstVideoInfo :=
  { format := .AYUV, info_width := 16, info_height := 16, fps_n := 30, fps_d := 1 }

/-- A libavfilter environment in which every call succeeds. -/
def envAllOk : LibAVEnv :=
  { parse_ok := true, config_ok := true, src1_ok := true, src2_ok := true, sink_ok := true }

/-- A libavfilter environment in which pulling the metric result frame
fails, so `process_filter_graph` returns a negative result. -/
def envSinkFails : LibAVEnv :=
  { parse_ok := true, config_ok := true, src1_ok := true, src2_ok := true, sink_ok := false }

/-- A small 2×2 single-plane reference frame. -/
def sampleRefFrame : GstVideoFrame :=
  { planes := [[10, 20, 30, 40]]
    frame_width := 2
    frame_height := 2
    pts := 33
    duration := some 33 }

/-- A small 2×2 single-plane compared frame. -/
def sampleCmpFrame : GstVideoFrame :=
  { planes := [[11, 21, 31, 41]]
    frame_width := 2
    frame_height := 2
    pts := 33
    duration := some 33 }

/-- A separately allocated output buffer (its initial bytes differ from the
reference frame's). -/
def sampleOutbuf : GstVideoFrame :=
  { planes := [[0, 0, 0, 0]]
    frame_width := 2
    frame_height := 2
    pts := 0
    duration := none }

/-! Helper lemmas. -/

theorem zipWith_self_eq_map {α β : Type} (f : α → α → β) :
    ∀ l : List α, List.zipWith f l l = l.map fun a => f a a
  | [] => rfl
  | x :: xs => by
    simp only [List.zipWith_cons_cons, List.map_cons]
    rw [zipWith_self_eq_map f xs]

theorem qmean_nonneg (xs : List ℚ) (h : ∀ x ∈ xs, 0 ≤ x) : 0 ≤ qmean xs :=
  div_nonneg (List.sum_nonneg h) (Nat.cast_nonneg _)

theorem sum_eq_length_of_all_one (xs : List ℚ) (h : ∀ x ∈ xs, x = 1) :
    xs.sum = (xs.length : ℚ) := by
  induction xs with
  | nil => simp
  | cons a t ih =>
    simp only [List.sum_cons, List.length_cons]
    rw [h a (by simp), ih fun x hx => h x (by simp [hx])]
    push_cast
    ring

theorem qmean_all_one (xs : List ℚ) (hne : xs ≠ []) (h : ∀ x ∈ xs, x = 1) :
    qmean xs = 1 := by
  have hlen : (xs.length : ℚ) ≠ 0 := by
    exact_mod_cast fun h0 => hne (List.length_eq_zero.mp h0)
  rw [qmean, sum_eq_length_of_all_one xs h, div_self hlen]

theorem qmean_all_zero (xs : List ℚ) (h : ∀ x ∈ xs, x = 0) : qmean xs = 0 := by
  rw [qmean, List.sum_eq_zero h, zero_div]

theorem sum_zipWith_mul_one : ∀ ws ss : List ℚ, ws.length = ss.length →
    (∀ x ∈ ss, x = 1) → (List.zipWith (· * ·) ws ss).sum = ws.sum
  | [], [], _, _ => rfl
  | [], _ :: _, h, _ => by simp at h
  | _ :: _, [], h, _ => by simp at h
  | w :: ws, s :: ss, h, hs => by
    simp only [List.zipWith_cons_cons, List.sum_cons]
    rw [hs s (by simp), mul_one,
      sum_zipWith_mul_one ws ss (by simpa using h) fun x hx => hs x (by simp [hx])]

theorem sum_zipWith_mul_zero : ∀ ws ss : List ℚ, (∀ x ∈ ss, x = 0) →
    (List.zipWith (· * ·) ws ss).sum = 0
  | [], _, _ => rfl
  | _ :: _, [], _ => rfl
  | w :: ws, s :: ss, h => by
    simp only [List.zipWith_cons_cons, List.sum_cons]
    rw [h s (by simp), mul_zero,
      sum_zipWith_mul_zero ws ss fun x hx => h x (by simp [hx]), add_zero]

theorem ssimBlockScore_self (b : List ℚ) : ssimBlockScore b b = 1 := by
  simp only [ssimBlockScore]
  rw [zipWith_self_eq_map]
  have hv : 0 ≤ qmean (b.map fun x => (x - qmean b) * (x - qmean b)) :=
    qmean_nonneg _ (by
      intro x hx
      obtain ⟨a, _, rfl⟩ := List.mem_map.mp hx
      exact mul_self_nonneg _)
  have hc1 : (0 : ℚ) < ssimC1 := by norm_num [ssimC1]
  have hc2 : (0 : ℚ) < ssimC2 := by norm_num [ssimC2]
  have hmu : 0 ≤ qmean b * qmean b := mul_self_nonneg _
  have hA : 0 < qmean b * qmean b + qmean b * qmean b + ssimC1 := by linarith
  have hB : 0 < qmean (b.map fun x => (x - qmean b) * (x - qmean b)) +
      qmean (b.map fun x => (x - qmean b) * (x - qmean b)) + ssimC2 := by linarith
  have hnum : (2 * qmean b * qmean b + ssimC1) *
      (2 * qmean (b.map fun x => (x - qmean b) * (x - qmean b)) + ssimC2) =
      (qmean b * qmean b + qmean b * qmean b + ssimC1) *
      (qmean (b.map fun x => (x - qmean b) * (x - qmean b)) +
        qmean (b.map fun x => (x - qmean b) * (x - qmean b)) + ssimC2) := by ring
  rw [hnum, div_self (ne_of_gt (mul_pos hA hB))]

theorem ssimBlocks_ne_nil (H W : ℕ) (hH : 4 ≤ H) (hW : 4 ≤ W) :
    ssimBlocks H W ≠ [] := by
  have h00 : ((0, 0) : ℕ × ℕ) ∈ ssimBlocks H W := by
    unfold ssimBlocks
    rw [List.mem_filter]
    refine ⟨List.mem_flatMap.mpr ⟨0, List.mem_range.mpr (by omega), ?_⟩, ?_⟩
    · exact List.mem_map.mpr ⟨0, List.mem_range.mpr (by omega), rfl⟩
    · simp only [decide_eq_true_eq]
      omega
  intro hnil
  rw [hnil] at h00
  exact (List.not_mem_nil _) h00

theorem ssimPlaneScore_self (H W : ℕ) (hH : 4 ≤ H) (hW : 4 ≤ W) (p : Plane) :
    ssimPlaneScore H W p p = 1 := by
  unfold ssimPlaneScore
  apply qmean_all_one
  · intro hmapnil
    exact ssimBlocks_ne_nil H W hH hW (List.map_eq_nil_iff.mp hmapnil)
  · intro x hx
    obtain ⟨b, _, rfl⟩ := List.mem_map.mp hx
    exact ssimBlockScore_self _

theorem planeMse_self (p : Plane) : planeMse p p = 0 := by
  rw [planeMse, zipWith_self_eq_map]
  apply qmean_all_zero
  intro x hx
  obtain ⟨a, _, rfl⟩ := List.mem_map.mp hx
  ring

theorem one_le_inspected_components (pf : GstVideoFormat) :
    1 ≤ inspected_components pf := by
  cases pf <;> decide

/-- Claim C4: for any two byte-identical input frames of any supported pixel
format — the frame given as its inspected component planes, each component at
least 4×4 so the SSIM kernel has an admissible block — the PSNR aggregate is
the sentinel `inf` and the SSIM aggregate equals 1 exactly, hence lies within
1e-9 of 1.0. -/
theorem identical_frames_psnr_inf_ssim_one (pf : GstVideoFormat)
    (_hpf : pf ∈ GST_FFMPEGVIDCMP_FORMATS)
    (comps : List (ℕ × ℕ × Plane))
    (hn : comps.length = inspected_components pf)
    (hdims : ∀ x ∈ comps, 4 ≤ x.1 ∧ 4 ≤ x.2.1) :
    psnr_aggregate (comps.map fun x => (x.2.2, x.2.2)) = PsnrScore.inf
    ∧ ssim_aggregate (comps.map fun x => (x.1, x.2.1, x.2.2, x.2.2)) = 1
    ∧ |ssim_aggregate (comps.map fun x => (x.1, x.2.1, x.2.2, x.2.2)) - 1|
        ≤ 1 / 1000000000 := by
  have hne : comps ≠ [] := by
    intro hc
    rw [hc] at hn
    have := one_le_inspected_components pf
    simp at hn
    omega
  have hpsnr : psnr_aggregate (comps.map fun x => (x.2.2, x.2.2)) = PsnrScore.inf := by
    simp only [psnr_aggregate, List.map_map]
    have h0 : (List.zipWith (· * ·)
        ((comps.map fun x => (x.2.2, x.2.2)).map fun rc => ((rc.1.flatten.length : ℕ) : ℚ))
        (comps.map ((fun rc => planeMse rc.1 rc.2) ∘ fun x => (x.2.2, x.2.2)))).sum = 0 := by
      apply sum_zipWith_mul_zero
      intro x hx
      obtain ⟨a, _, rfl⟩ := List.mem_map.mp hx
      exact planeMse_self _
    rw [List.map_map] at h0
    rw [h0, zero_div, if_pos rfl]
  have hssim : ssim_aggregate (comps.map fun x => (x.1, x.2.1, x.2.2, x.2.2)) = 1 := by
    simp only [ssim_aggregate, List.map_map]
    rw [sum_zipWith_mul_one _ _ (by simp) ?_]
    · apply div_self
      apply ne_of_gt
      apply List.sum_pos
      · intro w hw
        obtain ⟨x, hx, rfl⟩ := List.mem_map.mp hw
        have hd := hdims x hx
        show (0 : ℚ) < ((x.1 * x.2.1 : ℕ) : ℚ)
        exact_mod_cast Nat.mul_pos (by omega) (by omega)
      · intro hmapnil
        exact hne (List.map_eq_nil_iff.mp hmapnil)
    · intro s hs
      obtain ⟨x, hx, rfl⟩ := List.mem_map.mp hs
      have hd := hdims x hx
      exact ssimPlaneScore_self x.1 x.2.1 hd.1 hd.2 x.2.2
  refine ⟨hpsnr, hssim, ?_⟩
  rw [hssim]
  norm_num

/-- An 8×8 constant plane used as a concrete witness frame. -/
def plane8x8 : Plane := List.replicate 8 (List.replicate 8 128)

/-- Witness for claim C4 at a concrete 8×8 single-component (GRAY8) frame. -/
theorem identical_frames_psnr_inf_ssim_one_witness :
    psnr_aggregate ([((8 : ℕ), (8 : ℕ), plane8x8)].map fun x => (x.2.2, x.2.2))
      = PsnrScore.inf
    ∧ ssim_aggregate ([((8 : ℕ), (8 : ℕ), plane8x8)].map fun x => (x.1, x.2.1, x.2.2, x.2.2))
      = 1 :=
  ⟨(identical_frames_psnr_inf_ssim_one .GRAY8 (by decide) _ (by decide) (by decide)).1,
   (identical_frames_psnr_inf_ssim_one .GRAY8 (by decide) _ (by decide) (by decide)).2.1⟩

/-- Claim C1: for every successfully completed pair the frame emitted
downstream is byte-identical to the reference input — same pixel data,
achieved by a full plane-wise copy of the reference into the separately
allocated output buffer, and same timestamp and duration once the framework
stamps the pushed buffer — and the reference frame itself is never mutated
(it is handed back unchanged). -/
theorem aggregate_forwards_reference_byte_identical (s : GstFFMpegVidCmp)
    (env : LibAVEnv) (r c outbuf : GstVideoFrame) :
    (gst_ffmpegvidcmp_aggregate_frames s env (some r) (some c) outbuf true).flow
      = GstFlowReturn.ok
    ∧ (gst_ffmpegvidcmp_aggregate_frames s env (some r) (some c) outbuf true).outbuf
      = gst_video_frame_copy outbuf r
    ∧ (gst_ffmpegvidcmp_aggregate_frames s env (some r) (some c) outbuf true).outbuf.planes
      = r.planes
    ∧ (push_downstream
        (gst_ffmpegvidcmp_aggregate_frames s env (some r) (some c) outbuf true).outbuf
        r).planes = r.planes
    ∧ (push_downstream
        (gst_ffmpegvidcmp_aggregate_frames s env (some r) (some c) outbuf true).outbuf
        r).pts = r.pts
    ∧ (push_downstream
        (gst_ffmpegvidcmp_aggregate_frames s env (some r) (some c) outbuf true).outbuf
        r).duration = r.duration
    ∧ (gst_ffmpegvidcmp_aggregate_frames s env (some r) (some c) outbuf true).ref_out
      = some r :=
  ⟨rfl, rfl, rfl, rfl, rfl, rfl, rfl⟩

/-- Claim C2: when both input frames are present and the filter-graph metric
computation fails (negative result), the warning is raised, the reference
frame is still copied to the output buffer and the aggregate call still
returns GST_FLOW_OK. -/
theorem aggregate_ok_despite_metric_failure (s : GstFFMpegVidCmp) (env : LibAVEnv)
    (r c outbuf : GstVideoFrame)
    (hfail : (process_filter_graph s env (_fill_avpicture s r) (_fill_avpicture s c)).1 < 0) :
    (gst_ffmpegvidcmp_aggregate_frames s env (some r) (some c) outbuf true).warned = true
    ∧ (gst_ffmpegvidcmp_aggregate_frames s env (some r) (some c) outbuf true).flow
      = GstFlowReturn.ok
    ∧ (gst_ffmpegvidcmp_aggregate_frames s env (some r) (some c) outbuf true).outbuf.planes
      = r.planes := by
  refine ⟨?_, rfl, rfl⟩
  show decide ((process_filter_graph s env (_fill_avpicture s r) (_fill_avpicture s c)).1 < 0)
      = true
  exact decide_eq_true hfail

/-- Witness for claim C2: with the buffersink pull failing, the metric
computation fails, yet the warning is raised and the flow return is OK. -/
theorem aggregate_ok_despite_metric_failure_witness :
    (process_filter_graph idleState envSinkFails (_fill_avpicture idleState sampleRefFrame)
        (_fill_avpicture idleState sampleCmpFrame)).1 < 0
    ∧ (gst_ffmpegvidcmp_aggregate_frames idleState envSinkFails (some sampleRefFrame)
        (some sampleCmpFrame) sampleOutbuf true).warned = true
    ∧ (gst_ffmpegvidcmp_aggregate_frames idleState envSinkFails (some sampleRefFrame)
        (some sampleCmpFrame) sampleOutbuf true).flow = GstFlowReturn.ok :=
  ⟨by decide,
   (aggregate_ok_despite_metric_failure idleState envSinkFails sampleRefFrame
      sampleCmpFrame sampleOutbuf (by decide)).1,
   (aggregate_ok_despite_metric_failure idleState envSinkFails sampleRefFrame
      sampleCmpFrame sampleOutbuf (by decide)).2.1⟩

theorem process_filter_graph_isSome (s : GstFFMpegVidCmp) (env : LibAVEnv)
    (i1 i2 : AVFrame) :
    ((process_filter_graph s env i1 i2).2).filter_graph.isSome = true := by
  unfold process_filter_graph init_filter_graph
  rcases hfg : s.filter_graph with _ | g <;>
    simp [hfg] <;> split_ifs <;> simp [hfg]

/-- Claim C3: once the element has processed a pair (both prepared frames
present in `aggregate_frames`, which initializes the filter graph), any
attempt to set `method` or `stats-file` is refused: the warning is emitted
and the stored state is returned unchanged. -/
theorem set_property_refused_after_pair (s : GstFFMpegVidCmp) (env : LibAVEnv)
    (r c outbuf : GstVideoFrame) (mok : Bool) (pid : PropId) (v : GValue) :
    gst_ffmpegvidcmp_set_property
        ((gst_ffmpegvidcmp_aggregate_frames s env (some r) (some c) outbuf mok).self) pid v
      = ((gst_ffmpegvidcmp_aggregate_frames s env (some r) (some c) outbuf mok).self,
          true) := by
  have hself : (gst_ffmpegvidcmp_aggregate_frames s env (some r) (some c) outbuf mok).self
      = (process_filter_graph s env (_fill_avpicture s r) (_fill_avpicture s c)).2 := by
    cases mok <;> rfl
  have hsome := process_filter_graph_isSome s env (_fill_avpicture s r) (_fill_avpicture s c)
  rw [hself]
  cases pid <;> simp [gst_ffmpegvidcmp_set_property, hsome]

/-- Claim C9: the write-once guard on `method` and `stats-file` is keyed to
the lifetime of the initialized filter graph: a set mutates the stored value
iff the graph is uninitialized, `reset` frees the graph, and both options
are therefore settable again after every reset. -/
theorem write_once_keyed_to_filter_graph (s : GstFFMpegVidCmp) (str : String)
    (m : GstFFMpegVidCmpMethod) (pid : PropId) (v : GValue) :
    (s.filter_graph.isSome = true → gst_ffmpegvidcmp_set_property s pid v = (s, true))
    ∧ (s.filter_graph = none →
        gst_ffmpegvidcmp_set_property s .statsFile (.vstring str)
          = ({ s with stats_file := str }, false)
        ∧ gst_ffmpegvidcmp_set_property s .vidcmpMethod (.venum m)
          = ({ s with method := m }, false))
    ∧ (gst_ffmpegvidcmp_reset s).filter_graph = none
    ∧ gst_ffmpegvidcmp_set_property (gst_ffmpegvidcmp_reset s) .statsFile (.vstring str)
        = ({ gst_ffmpegvidcmp_reset s with stats_file := str }, false)
    ∧ gst_ffmpegvidcmp_set_property (gst_ffmpegvidcmp_reset s) .vidcmpMethod (.venum m)
        = ({ gst_ffmpegvidcmp_reset s with method := m }, false) := by
  refine ⟨?_, ?_, rfl, rfl, rfl⟩
  · intro h
    cases pid <;> simp [gst_ffmpegvidcmp_set_property, h]
  · intro h
    constructor <;>
      simp [gst_ffmpegvidcmp_set_property, h, g_value_get_string, g_value_get_enum]

/-- Witness for claim C9: with an initialized graph the set is refused; after
a reset of the same state it mutates the stored value. -/
theorem write_once_keyed_to_filter_graph_witness :
    gst_ffmpegvidcmp_set_property configuredState16 .statsFile (.vstring "x")
      = (configuredState16, true)
    ∧ gst_ffmpegvidcmp_set_property (gst_ffmpegvidcmp_reset configuredState16)
        .statsFile (.vstring "x")
      = ({ gst_ffmpegvidcmp_reset configuredState16 with stats_file := "x" }, false) :=
  ⟨(write_once_keyed_to_filter_graph configuredState16 "x" .ssim .statsFile
      (.vstring "x")).1 rfl,
   (write_once_keyed_to_filter_graph configuredState16 "x" .ssim .statsFile
      (.vstring "x")).2.2.2.1⟩

/-- Claim C5: the pairing poll distinguishes starvation from termination —
it waits when at least one queue is empty and neither input has signalled
end-of-stream, terminates exactly when an input has signalled end-of-stream
with an empty queue, and in that case `gst_ffmpegvidcmp_aggregate_frames`
(invoked with the missing prepared frame) returns GST_FLOW_EOS. -/
theorem poll_wait_vs_terminate (q1 q2 : List GstVideoFrame) (e1 e2 : Bool) :
    ((q1 = [] ∨ q2 = []) → e1 = false → e2 = false →
        poll q1 q2 e1 e2 = PollResult.wait)
    ∧ (poll q1 q2 e1 e2 = PollResult.terminate ↔
        ((e1 = true ∧ q1 = []) ∨ (e2 = true ∧ q2 = [])))
    ∧ (poll q1 q2 e1 e2 = PollResult.terminate →
        ∀ s env outbuf mok,
          (gst_ffmpegvidcmp_aggregate_frames s env q1.head? q2.head? outbuf mok).flow
            = GstFlowReturn.eos) := by
  rcases q1 with _ | ⟨a, t1⟩ <;> rcases q2 with _ | ⟨b, t2⟩ <;>
    cases e1 <;> cases e2 <;>
    simp [poll, gst_ffmpegvidcmp_aggregate_frames]

/-- Witness for claim C5: empty queues without end-of-stream wait; an empty
queue on an input at end-of-stream terminates and the aggregate call over
the corresponding missing prepared frame returns GST_FLOW_EOS. -/
theorem poll_wait_vs_terminate_witness :
    poll ([] : List GstVideoFrame) [] false false = PollResult.wait
    ∧ poll ([] : List GstVideoFrame) [sampleCmpFrame] true false = PollResult.terminate
    ∧ (gst_ffmpegvidcmp_aggregate_frames idleState envAllOk
        ([] : List GstVideoFrame).head? [sampleCmpFrame].head? sampleOutbuf true).flow
      = GstFlowReturn.eos :=
  ⟨(poll_wait_vs_terminate [] [] false false).1 (Or.inl rfl) rfl rfl,
   ((poll_wait_vs_terminate [] [sampleCmpFrame] true false).2.1).mpr (Or.inl ⟨rfl, rfl⟩),
   (poll_wait_vs_terminate [] [sampleCmpFrame] true false).2.2
     (((poll_wait_vs_terminate [] [sampleCmpFrame] true false).2.1).mpr
       (Or.inl ⟨rfl, rfl⟩))
     idleState envAllOk sampleOutbuf true⟩

/-- Claim C6: configuration fails exactly outside the closed supported
format set — for a parseable caps whose format is outside the set the call
returns FALSE and the element does not enter the configured state, and for
every format inside the set it succeeds and records geometry, framerate and
the mapped pixel format. -/
theorem setcaps_closed_format_set (s : GstFFMpegVidCmp) (v : GstVideoInfo) :
    ((gst_ffmpegvidcmp_setcaps s (some v)).1 = true ↔
        v.format ∈ GST_FFMPEGVIDCMP_FORMATS)
    ∧ (v.format ∉ GST_FFMPEGVIDCMP_FORMATS →
        (gst_ffmpegvidcmp_setcaps s (some v)).1 = false
        ∧ configured (gst_ffmpegvidcmp_setcaps s (some v)).2 = false)
    ∧ (v.format ∈ GST_FFMPEGVIDCMP_FORMATS →
        (gst_ffmpegvidcmp_setcaps s (some v)).1 = true
        ∧ (gst_ffmpegvidcmp_setcaps s (some v)).2.width = v.info_width
        ∧ (gst_ffmpegvidcmp_setcaps s (some v)).2.height = v.info_height
        ∧ (gst_ffmpegvidcmp_setcaps s (some v)).2.fps_num = v.fps_n
        ∧ (gst_ffmpegvidcmp_setcaps s (some v)).2.fps_denom = v.fps_d
        ∧ (gst_ffmpegvidcmp_setcaps s (some v)).2.pixfmt
            = gst_ffmpeg_videoformat_to_pixfmt v.format
        ∧ configured (gst_ffmpegvidcmp_setcaps s (some v)).2 = true) := by
  obtain ⟨fmt, w, h, fn, fd⟩ := v
  cases fmt <;>
    simp [gst_ffmpegvidcmp_setcaps, gst_ffmpeg_videoformat_to_pixfmt, configured,
      GST_FFMPEGVIDCMP_FORMATS]

/-- Witness for claim C6: an AYUV caps is refused and leaves the element
unconfigured; an I420 caps succeeds and records the geometry. -/
theorem setcaps_closed_format_set_witness :
    (gst_ffmpegvidcmp_setcaps idleState (some vinfoAYUV)).1 = false
    ∧ configured (gst_ffmpegvidcmp_setcaps idleState (some vinfoAYUV)).2 = false
    ∧ (gst_ffmpegvidcmp_setcaps idleState (some vinfoI420x16)).1 = true
    ∧ (gst_ffmpegvidcmp_setcaps idleState (some vinfoI420x16)).2.width
      = vinfoI420x16.info_width :=
  ⟨((setcaps_closed_format_set idleState vinfoAYUV).2.1 (by decide)).1,
   ((setcaps_closed_format_set idleState vinfoAYUV).2.1 (by decide)).2,
   ((setcaps_closed_format_set idleState vinfoI420x16).2.2 (by decide)).1,
   ((setcaps_closed_format_set idleState vinfoI420x16).2.2 (by decide)).2.1⟩

/-- Counterexample to claim C7 as stated: in a state that has left `Idle`
(negotiated caps and an initialized filter graph), a further caps-setting
invocation is not refused — it succeeds and overwrites the configured
geometry. -/
theorem setcaps_not_refused_after_leaving_idle :
    configuredState16.filter_graph.isSome = true
    ∧ configuredState16.width = 16
    ∧ (gst_ffmpegvidcmp_setcaps configuredState16 (some vinfoI420x32)).1 = true
    ∧ (gst_ffmpegvidcmp_setcaps configuredState16 (some vinfoI420x32)).2.width = 32 := by
  decide

/-- Claim C7 (amended): the caps-setting operation is not guarded by engine
state — every invocation with parseable caps, including after the engine has
left `Idle`, overwrites the stored geometry, framerate and pixel format,
succeeds exactly when the format maps to a libav pixel format, and leaves
the filter graph and the two options untouched; only `method` and
`stats-file` carry a write-once guard. -/
theorem setcaps_always_overwrites (s : GstFFMpegVidCmp) (v : GstVideoInfo) :
    (gst_ffmpegvidcmp_setcaps s (some v)).2
      = { s with
          width := v.info_width
          height := v.info_height
          fps_num := v.fps_n
          fps_denom := v.fps_d
          pixfmt := gst_ffmpeg_videoformat_to_pixfmt v.format }
    ∧ (gst_ffmpegvidcmp_setcaps s (some v)).1
      = (gst_ffmpeg_videoformat_to_pixfmt v.format).isSome :=
  ⟨rfl, rfl⟩

/-- Claim C8: `reset()` followed by `configure(X)` is idempotent —
performing the sequence twice from any state yields exactly the same element
state (geometry, framerate, pixel format, filter-graph state, options) as
performing it once. -/
theorem reset_configure_idempotent (s : GstFFMpegVidCmp) (caps : Option GstVideoInfo) :
    (gst_ffmpegvidcmp_setcaps (gst_ffmpegvidcmp_reset
        (gst_ffmpegvidcmp_setcaps (gst_ffmpegvidcmp_reset s) caps).2) caps).2
      = (gst_ffmpegvidcmp_setcaps (gst_ffmpegvidcmp_reset s) caps).2 := by
  cases caps <;> rfl

/-- Claim C10: the downstream output caps are always derived from the
reference pad (sinkpad1) video info; the second input's negotiated info
never influences the result. -/
theorem update_caps_from_reference_pad (i1 i2 i2' : GstVideoInfo) :
    gst_ffmpegvidcmp_update_caps ⟨i1, i2⟩ = gst_video_info_to_caps i1
    ∧ gst_ffmpegvidcmp_update_caps ⟨i1, i2⟩ = gst_ffmpegvidcmp_update_caps ⟨i1, i2'⟩ :=
  ⟨rfl, rfl⟩

end GstAvVidCmp
